import Mathlib

/- Verification of the api_gateway request-dispatch core
   (src/api_gateway/index.js, rate-limited variant), the users service
   (src/unnamed/part_002 and src/service_users/index.js), the orders
   service (src/service_orders/index.js) and the domain-event module
   (src/unnamed/part_001), against the natural-language specification. -/

/-- Model of a JSON/JavaScript value as manipulated by the route handlers.
`jundefined` models the JavaScript undefined value. -/
inductive JVal where
  | jundefined
  | jnull
  | jbool (b : Bool)
  | jnum (n : Int)
  | jstr (s : String)
  | jarr (xs : List JVal)
  | jobj (fields : List (String × JVal))
deriving Repr

/-- Property access `v.k` as JavaScript evaluates it: access on undefined
or null throws a TypeError (modelled as `Except.error`), access of a
missing key on an object yields undefined, and property access on other
primitives yields undefined for the keys used by this code. -/
def JVal.getField : JVal → String → Except Unit JVal
  | .jundefined, _ => .error ()
  | .jnull, _ => .error ()
  | .jobj fields, k =>
      match fields.find? (fun p => p.1 == k) with
      | some p => .ok p.2
      | none => .ok .jundefined
  | _, _ => .ok .jundefined

/-- Truthiness of a JavaScript value. -/
def JVal.truthy : JVal → Bool
  | .jundefined => false
  | .jnull => false
  | .jbool b => b
  | .jnum n => n != 0
  | .jstr s => s != ""
  | .jarr _ => true
  | .jobj _ => true

/-- HTTP response produced by a gateway route handler: the status code
passed to `res.status` and the JSON body. -/
structure HttpResp where
  status : Nat
  body : JVal
deriving Repr

/-- Outcome of one outbound upstream HTTP attempt as seen by the wrapped
axios call inside usersCircuit/ordersCircuit (src/api_gateway/index.js,
the breaker actions). `completed` means an HTTP response with some status
was received; because the wrapped call passes `validateStatus: () => true`,
axios resolves on every received status. `connectionFailure` means the
transport failed (connection refused, DNS failure, socket error), which
makes axios reject. `timedOut` means the breaker timeout
(circuitOptions.timeout = 3000 ms) fired before the call finished. -/
inductive UpstreamAttempt where
  | completed (status : Nat) (data : JVal)
  | connectionFailure
  | timedOut
deriving Repr

/-- Value the circuit action resolves with: the `{ data, status }` pair
built from the axios response. -/
structure FireValue where
  data : JVal
  status : Nat
deriving Repr

/-- The circuit action of usersCircuit/ordersCircuit: resolves with
`{ data, status }` whenever an HTTP response is received, of any status
(`validateStatus: () => true` disables axios status-based rejection);
rejects only when the transport fails or the breaker timeout fires. -/
def circuitAction : UpstreamAttempt → Except Unit FireValue
  | .completed s d => .ok ⟨d, s⟩
  | .connectionFailure => .error ()
  | .timedOut => .error ()

/-- An attempt is recorded as a circuit-breaker failure exactly when the
circuit action rejects or times out: the opossum breaker counts a rejected
or timed-out action as a failure and a resolved action as a success. -/
def recordedAsBreakerFailure (o : UpstreamAttempt) : Bool :=
  match circuitAction o with
  | .ok _ => false
  | .error _ => true

/-- Test for a completed response with a 5xx status. -/
def UpstreamAttempt.is5xx : UpstreamAttempt → Bool
  | .completed s _ => decide (500 ≤ s) && decide (s ≤ 599)
  | _ => false

/-- Test for a completed response with a 4xx status. -/
def UpstreamAttempt.is4xx : UpstreamAttempt → Bool
  | .completed s _ => decide (400 ≤ s) && decide (s ≤ 499)
  | _ => false

/-- Test for a transport-level failure (timeout or connection failure). -/
def UpstreamAttempt.isTransportFailure : UpstreamAttempt → Bool
  | .connectionFailure => true
  | .timedOut => true
  | _ => false

/-- C1 counterexample: a completed 500 response from the upstream is a 5xx
response, yet it is not recorded as a breaker failure, because the wrapped
axios call resolves on every received status; this contradicts the claim
that a 5xx response is recorded as a breaker failure. -/
theorem c1_counterexample :
    (UpstreamAttempt.completed 500 (.jobj [("error", .jstr ("boom"))])).is5xx = true ∧
    recordedAsBreakerFailure (.completed 500 (.jobj [("error", .jstr ("boom"))])) = false := by
  exact ⟨by decide, rfl⟩

/-- C1 amended: every outbound call through the Upstream Client is
classified for the breaker as follows: a completed HTTP response of any
status, 4xx and 5xx alike, is not recorded as a breaker failure; exactly
the transport failures (timeout, connection failure) are recorded as
breaker failures. In particular a 4xx response is never a breaker
failure. -/
theorem c1_amended (o : UpstreamAttempt) :
    recordedAsBreakerFailure o = o.isTransportFailure ∧
    (o.is4xx = true → recordedAsBreakerFailure o = false) := by
  cases o <;>
    simp [recordedAsBreakerFailure, circuitAction, UpstreamAttempt.isTransportFailure,
      UpstreamAttempt.is4xx]

/-- C1 amended, witness: the amended classification evaluated at a
completed 404 response. -/
theorem c1_amended_witness :
    recordedAsBreakerFailure (.completed 404 .jundefined) =
      (UpstreamAttempt.completed 404 .jundefined).isTransportFailure ∧
    ((UpstreamAttempt.completed 404 .jundefined).is4xx = true →
      recordedAsBreakerFailure (.completed 404 .jundefined) = false) :=
  c1_amended (.completed 404 .jundefined)

/-- Fallback value registered on usersCircuit: a bare object carrying only
an `error` message, not a `{ data, status }` pair. -/
def usersFallbackValue : JVal :=
  .jobj [("error", .jstr ("Users service temporarily unavailable"))]

/-- Fallback value registered on ordersCircuit. -/
def ordersFallbackValue : JVal :=
  .jobj [("error", .jstr ("Orders service temporarily unavailable"))]

/-- Extractor used to discriminate response bodies: the string stored
under a leading `error` key. Two objects on which it evaluates to
different strings are different values. -/
def JVal.errMsg : JVal → String
  | .jobj (("error", .jstr s) :: _) => s
  | _ => ""

/-- Body sent by the catch branch of every proxying route handler. -/
def internalErrorBody : JVal := .jobj [("error", .jstr ("Internal server error"))]

/-- Try-block of a plain proxying route handler, e.g. GET /users/status:
`res.status(result.status).json(result.data)`. Modelled in `Except` so a
thrown error falls through to the catch branch. When `result.status` is
not a number in the valid range (as happens when the fallback object,
which has no `status` field, reaches the handler), writing the response
head throws a RangeError (invalid status code), modelled as `.error`. -/
def proxyRespondTry (result : JVal) : Except Unit HttpResp := do
  let st ← result.getField ("status")
  let d ← result.getField ("data")
  match st with
  | .jnum n =>
      if 100 ≤ n ∧ n ≤ 999 then pure ⟨n.toNat, d⟩ else .error ()
  | _ => .error ()

/-- One plain proxying route handler: the try-block above with the catch
branch replying 500 with the generic internal-error body. -/
def proxyRespond (result : JVal) : HttpResp :=
  match proxyRespondTry result with
  | .ok r => r
  | .error _ => ⟨500, internalErrorBody⟩

/-- C2: evaluation of the code at the failing input. When the users
breaker short-circuits or the call fails, the route handler receives the
bare fallback object, whose `status` field is undefined; the response the
caller actually gets is the catch-branch 500 with the generic
internal-error body: not a 503-equivalent result, and not carrying the
explanatory fallback message. -/
theorem c2_code_eval :
    proxyRespond usersFallbackValue = ⟨500, internalErrorBody⟩ ∧
    (proxyRespond usersFallbackValue).status ≠ 503 ∧
    (proxyRespond usersFallbackValue).body ≠ usersFallbackValue := by
  refine ⟨rfl, by decide, fun h => absurd (congrArg JVal.errMsg h) (by decide)⟩

/-- Decoded JWT payload as the gateway uses it: the subject id and the
roles claim. `roles = none` models a decoded payload whose `roles` key is
missing or not an array (requireRoles checks both with `Array.isArray`). -/
structure Claims where
  id : Int
  roles : Option (List String)
deriving Repr

/-- Token extraction performed by authenticateJWT: the authorization
header must be present and start with `Bearer ` (checked here on the
character list, which is what startsWith compares); the token is
`substring(7)`, the rest of the header. An empty rest is falsy in
JavaScript (`if (!token)`), so it counts as a missing token. -/
def extractBearerToken (authHeader : Option String) : Option String :=
  match authHeader with
  | none => none
  | some h =>
      if h.toList.take 7 = ("Bearer ").toList then
        let t := String.mk (h.toList.drop 7)
        if t = "" then none else some t
      else none

/-- Outcome of one express middleware: either a response was sent and the
chain stops, or the chain proceeds (for authenticateJWT, carrying the
decoded claims attached to the request). -/
inductive GuardStep (α : Type) where
  | reject (resp : HttpResp)
  | proceed (a : α)
deriving Repr

/-- Status code sent by a guard step, 0 when the guard proceeds. -/
def GuardStep.sentStatus {α : Type} : GuardStep α → Nat
  | .reject r => r.status
  | .proceed _ => 0

/-- Body of the 401 sent when the bearer token is missing. -/
def missingTokenBody : JVal :=
  .jobj [("success", .jbool false),
         ("error", .jobj [("message", .jstr ("Access token is missing or invalid"))])]

/-- Body of the 401 sent when jwt.verify throws. -/
def invalidTokenBody : JVal :=
  .jobj [("success", .jbool false),
         ("error", .jobj [("message", .jstr ("Invalid or expired token"))])]

/-- The authenticateJWT middleware. `verify` stands for
`jwt.verify(token, JWT_SECRET)`: it yields the decoded claims, or none
when the token is malformed or fails its signature/expiry check (the
middleware catches the throw and replies 401). -/
def authenticateJWT (verify : String → Option Claims)
    (authHeader : Option String) : GuardStep Claims :=
  match extractBearerToken authHeader with
  | none => .reject ⟨401, missingTokenBody⟩
  | some t =>
      match verify t with
      | none => .reject ⟨401, invalidTokenBody⟩
      | some c => .proceed c

/-- Body of the 401 sent by requireRoles when no user is attached. -/
def authRequiredBody : JVal :=
  .jobj [("success", .jbool false),
         ("error", .jobj [("message", .jstr ("Authentication required"))])]

/-- Body of the 403 sent when the decoded payload has no roles array. -/
def rolesNotFoundBody : JVal :=
  .jobj [("success", .jbool false),
         ("error", .jobj [("message", .jstr ("User roles not found"))])]

/-- Body of the 403 sent when no allowed role is held by the caller. -/
def accessDeniedBody (allowedRoles : List String) : JVal :=
  .jobj [("success", .jbool false),
         ("error", .jobj [("message",
            .jstr ("Access denied. Required roles: " ++
              String.intercalate (", ") allowedRoles))])]

/-- The requireRoles(allowedRoles) middleware. `user = none` models a
request on which no claims were attached (`!req.user`). -/
def requireRoles (allowedRoles : List String) (user : Option Claims) :
    GuardStep Unit :=
  match user with
  | none => .reject ⟨401, authRequiredBody⟩
  | some u =>
      match u.roles with
      | none => .reject ⟨403, rolesNotFoundBody⟩
      | some rs =>
          if allowedRoles.any (fun role => rs.contains role) then .proceed ()
          else .reject ⟨403, accessDeniedBody allowedRoles⟩

/-- A protected gateway route: authenticateJWT, then requireRoles when
the route declares a role list, then the route handler, short-circuiting
at the first middleware that sends a response. The handler abstracts the
route body; it reports its response together with the number of circuit
fire calls it performed, so that theorems can state that no upstream call
happens when a guard rejects. -/
def runProtectedRoute (verify : String → Option Claims)
    (authHeader : Option String) (allowedRoles : Option (List String))
    (handler : Claims → HttpResp × Nat) : HttpResp × Nat :=
  match authenticateJWT verify authHeader with
  | .reject r => (r, 0)
  | .proceed c =>
      match allowedRoles with
      | none => handler c
      | some rl =>
          match requireRoles rl (some c) with
          | .reject r => (r, 0)
          | .proceed _ => handler c

/-- Characterization of requireRoles when the decoded claims carry a
roles array: the chain proceeds exactly when some allowed role is
contained in the roles array. -/
theorem requireRoles_proceed_iff (allowedRoles : List String) (c : Claims)
    (rs : List String) (hr : c.roles = some rs) :
    requireRoles allowedRoles (some c) = .proceed () ↔
      allowedRoles.any (fun role => rs.contains role) = true := by
  simp only [requireRoles, hr]
  by_cases hany : allowedRoles.any (fun role => rs.contains role) = true
  · simp [hany]
  · simp [hany]

/-- C4: on every authenticated route, a request whose bearer credential
is absent or malformed (no extractable token) or whose token fails the
signature/expiry check (jwt.verify throws) is answered 401 by the
gateway, and the route handler never runs: zero upstream calls are
performed, so the request never reaches the Router. -/
theorem c4_auth_rejects (verify : String → Option Claims)
    (authHeader : Option String) (allowedRoles : Option (List String))
    (handler : Claims → HttpResp × Nat)
    (h : extractBearerToken authHeader = none ∨
         ∃ t, extractBearerToken authHeader = some t ∧ verify t = none) :
    (runProtectedRoute verify authHeader allowedRoles handler).1.status = 401 ∧
    (runProtectedRoute verify authHeader allowedRoles handler).2 = 0 := by
  rcases h with h | ⟨t, ht, hv⟩ <;>
    simp [runProtectedRoute, authenticateJWT, *]

/-- C4 witness: a syntactically well-formed bearer token that fails
verification is rejected with 401 and performs no upstream call. -/
theorem c4_auth_rejects_witness :
    (runProtectedRoute (fun _ => none) (some ("Bearer deadbeef")) none
        (fun _ => (⟨200, .jundefined⟩, 1))).1.status = 401 ∧
    (runProtectedRoute (fun _ => none) (some ("Bearer deadbeef")) none
        (fun _ => (⟨200, .jundefined⟩, 1))).2 = 0 :=
  c4_auth_rejects (fun _ => none) (some ("Bearer deadbeef")) none
    (fun _ => (⟨200, .jundefined⟩, 1)) (Or.inr ⟨"deadbeef", rfl, rfl⟩)

/-- C5 counterexample: when claims are absent, requireRoles responds 401
(Authentication required), not 403, contradicting the claim that
Forbidden is returned when Claims is absent. -/
theorem c5_counterexample :
    (requireRoles ["Admin"] none).sentStatus = 401 ∧
    (requireRoles ["Admin"] none).sentStatus ≠ 403 := by
  exact ⟨rfl, by decide⟩

/-- C5 amended: for a request carrying a valid credential whose decoded
roles array is disjoint from the required role list, the gateway responds
403 and performs no upstream call; when claims with a roles array are
present, access is granted iff the intersection of the roles with the
required list is non-empty; when claims are absent requireRoles responds
401 (not 403). -/
theorem c5_amended (verify : String → Option Claims)
    (authHeader : Option String) (required : List String)
    (handler : Claims → HttpResp × Nat) (c : Claims) (rs : List String)
    (t : String) (ht : extractBearerToken authHeader = some t)
    (hv : verify t = some c) (hr : c.roles = some rs) :
    (required.any (fun role => rs.contains role) = false →
      (runProtectedRoute verify authHeader (some required) handler).1.status = 403 ∧
      (runProtectedRoute verify authHeader (some required) handler).2 = 0) ∧
    (requireRoles required (some c) = .proceed () ↔
      ∃ role, role ∈ required ∧ role ∈ rs) ∧
    (requireRoles required none).sentStatus = 401 := by
  refine ⟨?_, ?_, rfl⟩
  · intro hdisj
    have hne : ¬ (required.any (fun role => rs.contains role) = true) := by
      rw [hdisj]
      exact Bool.false_ne_true
    have hreq : requireRoles required (some c) =
        .reject ⟨403, accessDeniedBody required⟩ := by
      simp only [requireRoles, hr, if_neg hne]
    simp [runProtectedRoute, authenticateJWT, ht, hv, hreq]
  · rw [requireRoles_proceed_iff required c rs hr, List.any_eq_true]
    constructor
    · rintro ⟨role, hmem, hcont⟩
      exact ⟨role, hmem, List.elem_iff.mp hcont⟩
    · rintro ⟨role, hmem, hin⟩
      exact ⟨role, hmem, List.elem_iff.mpr hin⟩

/-- C5 amended, witness: a caller holding only the Customer role is
denied with 403 and no upstream call on a route requiring Admin, the
grant-iff-intersection equivalence holds there, and an absent-claims
request gets 401. -/
theorem c5_amended_witness :
    ((["Admin"].any (fun role => ["Customer"].contains role) = false →
      (runProtectedRoute (fun _ => some ⟨7, some ["Customer"]⟩)
          (some ("Bearer tok")) (some ["Admin"])
          (fun _ => (⟨200, .jundefined⟩, 1))).1.status = 403 ∧
      (runProtectedRoute (fun _ => some ⟨7, some ["Customer"]⟩)
          (some ("Bearer tok")) (some ["Admin"])
          (fun _ => (⟨200, .jundefined⟩, 1))).2 = 0) ∧
    (requireRoles ["Admin"] (some ⟨7, some ["Customer"]⟩) = .proceed () ↔
      ∃ role, role ∈ ["Admin"] ∧ role ∈ ["Customer"]) ∧
    (requireRoles ["Admin"] none).sentStatus = 401) :=
  c5_amended (fun _ => some ⟨7, some ["Customer"]⟩) (some ("Bearer tok"))
    ["Admin"] (fun _ => (⟨200, .jundefined⟩, 1)) ⟨7, some ["Customer"]⟩
    ["Customer"] "tok" rfl rfl rfl

/-- Modelled from the spec: the opossum CircuitBreaker class is an npm
dependency, not part of src/; src contains only its configuration
(circuitOptions) and call sites. Fields mirror the configured options:
per-call timeout, error threshold percentage over the rolling request
window, cool-down (resetTimeout) before the Half-Open probe, and the
minimum sample size below which the ratio is not acted on. -/
structure CircuitOptions where
  timeoutMs : Nat
  errorThresholdPercentage : Nat
  resetTimeout : Nat
  volumeThreshold : Nat
deriving Repr, DecidableEq

/-- Configuration of usersCircuit and ordersCircuit (src circuitOptions):
timeout 3000 ms, errorThresholdPercentage 50, resetTimeout 3000 ms. The
minimum sample size is not set in src, so it stays a parameter. -/
def circuitOptions (volumeThreshold : Nat) : CircuitOptions :=
  { timeoutMs := 3000, errorThresholdPercentage := 50, resetTimeout := 3000,
    volumeThreshold := volumeThreshold }

/-- Modelled from the spec: breaker mode Closed / Open (with the time the
breaker opened) / Half-Open while a probe is in flight. -/
inductive BreakerMode where
  | closed
  | opened (openedAt : Nat)
  | halfOpened
deriving Repr, DecidableEq

/-- Modelled from the spec: per-upstream breaker state, the mode plus the
rolling window statistics. -/
structure BreakerState where
  mode : BreakerMode
  windowRequests : Nat
  windowFailures : Nat
deriving Repr, DecidableEq

/-- What one call through the breaker did: `network failed` means the
call was actually issued to the upstream with the given outcome;
`shortCircuited` means the breaker answered from the fallback without
issuing any network request. -/
inductive BreakerCallResult where
  | network (failed : Bool)
  | shortCircuited
deriving Repr, DecidableEq

/-- Modelled from the spec: one call through the breaker at time `now`,
where `failIfIssued` tells whether the upstream attempt would be recorded
as a failure if the call is actually issued. In Closed the call passes
through and the window is updated; when the failure ratio over the
window then exceeds the threshold with the minimum sample size reached,
the breaker transitions to Open recording openedAt = now. In Open, a call
before the cool-down has elapsed short-circuits without touching the
network; once the cool-down has elapsed the next call is admitted as the
Half-Open probe, whose success closes the breaker and resets the
counters and whose failure re-opens it (resetting openedAt). Calls
arriving while a probe is in flight are treated as still Open. -/
def breakerCall (opts : CircuitOptions) (st : BreakerState) (now : Nat)
    (failIfIssued : Bool) : BreakerState × BreakerCallResult :=
  match st.mode with
  | .closed =>
      let requests := st.windowRequests + 1
      let failures := st.windowFailures + (if failIfIssued then 1 else 0)
      if opts.volumeThreshold ≤ requests ∧
          opts.errorThresholdPercentage * requests < failures * 100 then
        ({ mode := .opened now, windowRequests := requests,
           windowFailures := failures }, .network failIfIssued)
      else
        ({ mode := .closed, windowRequests := requests,
           windowFailures := failures }, .network failIfIssued)
  | .opened t =>
      if now < t + opts.resetTimeout then
        (st, .shortCircuited)
      else
        if failIfIssued then
          ({ mode := .opened now, windowRequests := st.windowRequests,
             windowFailures := st.windowFailures }, .network true)
        else
          ({ mode := .closed, windowRequests := 0, windowFailures := 0 },
           .network false)
  | .halfOpened => (st, .shortCircuited)

/-- Sequence of calls through one breaker: each list entry is the call
time paired with whether the attempt would fail if issued. -/
def breakerRun (opts : CircuitOptions) : BreakerState → List (Nat × Bool) →
    BreakerState × List BreakerCallResult
  | st, [] => (st, [])
  | st, c :: rest =>
      let step := breakerCall opts st c.1 c.2
      let next := breakerRun opts step.1 rest
      (next.1, step.2 :: next.2)

/-- C3: when a call in Closed pushes the rolling-window failure ratio
over the configured threshold with the minimum sample size reached, the
breaker transitions to Open recording openedAt; and from any Open state,
every call of any sequence whose times all fall within the cool-down
interval after openedAt short-circuits to the fallback without issuing a
network request, leaving the breaker state unchanged. -/
theorem c3_breaker_trips_then_short_circuits (opts : CircuitOptions)
    (st : BreakerState) (now : Nat) (fail : Bool)
    (hc : st.mode = .closed)
    (hvol : opts.volumeThreshold ≤ st.windowRequests + 1)
    (hratio : opts.errorThresholdPercentage * (st.windowRequests + 1) <
      (st.windowFailures + (if fail then 1 else 0)) * 100) :
    (breakerCall opts st now fail).1.mode = .opened now ∧
    ∀ (stO : BreakerState) (t : Nat) (calls : List (Nat × Bool)),
      stO.mode = .opened t →
      (∀ p ∈ calls, p.1 < t + opts.resetTimeout) →
      breakerRun opts stO calls =
        (stO, calls.map (fun _ => .shortCircuited)) := by
  constructor
  · simp only [breakerCall, hc]
    rw [if_pos ⟨hvol, hratio⟩]
  · intro stO t calls hmode
    induction calls with
    | nil => intro _; simp [breakerRun]
    | cons c rest ih =>
        intro hwin
        have h1 : breakerCall opts stO c.1 c.2 = (stO, .shortCircuited) := by
          simp only [breakerCall, hmode]
          rw [if_pos (hwin c (List.mem_cons_self c rest))]
        have h2 := ih (fun p hp => hwin p (List.mem_cons_of_mem c hp))
        simp [breakerRun, h1, h2]

/-- C3 witness: with minimum sample size 1 and the configured 50 percent
threshold, a first failing call trips the breaker to Open, and from any
Open state all calls within the cool-down short-circuit. -/
theorem c3_breaker_witness :
    (breakerCall (circuitOptions 1) ⟨.closed, 0, 0⟩ 0 true).1.mode = .opened 0 ∧
    ∀ (stO : BreakerState) (t : Nat) (calls : List (Nat × Bool)),
      stO.mode = .opened t →
      (∀ p ∈ calls, p.1 < t + (circuitOptions 1).resetTimeout) →
      breakerRun (circuitOptions 1) stO calls =
        (stO, calls.map (fun _ => .shortCircuited)) :=
  c3_breaker_trips_then_short_circuits (circuitOptions 1) ⟨.closed, 0, 0⟩ 0 true
    rfl (by decide) (by decide)

/-- Value of a plain decimal numeral string, used to model the implicit
string-to-number coercion JavaScript performs for `==` between a number
and a string. Returns none when the string is not a plain decimal
numeral; the coercion would then yield NaN, which compares unequal. -/
def decimalValue? (s : String) : Option Nat :=
  if s.toList ≠ [] ∧ s.toList.all Char.isDigit then
    some (s.toList.foldl (fun acc c => 10 * acc + (c.toNat - 48)) 0)
  else none

/-- The loose equality `order.userId == userId` between the userId field
of a stored order and the path parameter (a string). Stored orders carry
a numeric userId (the orders schema validates it as a number), for which
JavaScript coerces the string side to a number; a string field would be
compared as a string; other shapes compare unequal here. -/
def jsLooseEqStr (v : JVal) (s : String) : Bool :=
  match v with
  | .jnum n =>
      match decimalValue? s with
      | some m => n == (m : Int)
      | none => false
  | .jstr s2 => s2 == s
  | _ => false

/-- Filter `orders.filter(order => order.userId == userId)`, monadic
because the userId property access on a malformed element would throw. -/
def filterOrdersForUser (userId : String) : List JVal → Except Unit (List JVal)
  | [] => .ok []
  | o :: rest => do
      let uid ← o.getField ("userId")
      let tail ← filterOrdersForUser userId rest
      .ok (if jsLooseEqStr uid userId then o :: tail else tail)

/-- The `{ data, status }` object a resolved circuit fire yields, as the
route handler sees it. -/
def fireResultValue (status : Int) (data : JVal) : JVal :=
  .jobj [("data", data), ("status", .jnum status)]

/-- Error envelope of the catch branch of the aggregation handler. -/
def internalErrorEnvelope : JVal :=
  .jobj [("success", .jbool false), ("error", .jstr ("Internal server error"))]

/-- Try-block of GET /users/:userId/details: after both fires settle, a
404 user status short-circuits to a 404 envelope; otherwise the filtered
`ordersResult.data.data` (empty when that expression is falsy) is
aggregated with `userResult.data` into the 200 success envelope. The
property accesses can throw, e.g. `ordersResult.data.data` when
ordersResult is the bare fallback object (its data field is undefined),
or `.filter` on a truthy non-array. -/
def detailsTry (userId : String) (userResult ordersResult : JVal) :
    Except Unit HttpResp := do
  let uStatus ← userResult.getField ("status")
  let is404 := match uStatus with
    | .jnum n => n == 404
    | _ => false
  if is404 then
    pure ⟨404, .jobj [("success", .jbool false), ("error", .jstr ("User not found"))]⟩
  else
    let oData ← ordersResult.getField ("data")
    let oInner ← oData.getField ("data")
    let userOrders ←
      if oInner.truthy then
        match oInner with
        | .jarr orders => filterOrdersForUser userId orders
        | _ => .error ()
      else
        pure []
    let uData ← userResult.getField ("data")
    pure ⟨200, .jobj [("success", .jbool true),
      ("data", .jobj [("user", uData), ("orders", .jarr userOrders)])]⟩

/-- The GET /users/:userId/details handler: the try-block with the catch
branch replying 500 with the internal-error envelope. -/
def detailsHandler (userId : String) (userResult ordersResult : JVal) :
    HttpResp :=
  match detailsTry userId userResult ordersResult with
  | .ok r => r
  | .error _ => ⟨500, internalErrorEnvelope⟩

/-- Sample sanitized user body as returned by GET /users/:userId. -/
def sampleUserBody : JVal :=
  .jobj [("id", .jnum 1), ("email", .jstr ("alice@example.com")),
         ("name", .jstr ("Alice"))]

/-- C6: evaluation of the code at the failing input. When the identity
call succeeds with 200 but the orders breaker short-circuits to its
fallback, the handler evaluates `ordersResult.data.data` on the bare
fallback object, whose data field is undefined; the property access
throws and the caller receives the catch-branch 500, not a 200 success
envelope with an empty orders list. By contrast, when the orders
upstream completes with an error response (here a 503 body), the
degraded 200 envelope with empty orders is indeed produced. -/
theorem c6_code_eval :
    detailsHandler "1" (fireResultValue 200 sampleUserBody) ordersFallbackValue
      = ⟨500, internalErrorEnvelope⟩ ∧
    (detailsHandler "1" (fireResultValue 200 sampleUserBody)
        ordersFallbackValue).status ≠ 200 ∧
    detailsHandler "1" (fireResultValue 200 sampleUserBody)
        (fireResultValue 503 (.jobj [("success", .jbool false),
          ("error", .jstr ("boom"))]))
      = ⟨200, .jobj [("success", .jbool true),
          ("data", .jobj [("user", sampleUserBody), ("orders", .jarr [])])]⟩ := by
  exact ⟨rfl, by decide, rfl⟩

/-- A user record as createUserModel builds it (src/unnamed/part_002 and
src/service_users/index.js): id, email, passwordHash, name, roles and
the two timestamps. -/
structure UserRec where
  id : Nat
  email : String
  passwordHash : String
  name : String
  roles : List String
  createdAt : String
  updatedAt : String
deriving Repr, DecidableEq

/-- Status code of POST /users/login on the users service for a request
that passes the login schema (src/unnamed/part_002): 401 unless some
stored user has the given email and its passwordHash equals the given
password, in which case 200 with the token envelope. -/
def loginStatus (db : List UserRec) (email password : String) : Nat :=
  match db.find? (fun u => u.email == email) with
  | none => 401
  | some u => if u.passwordHash == password then 200 else 401

/-- Modelled from the spec: the express-rate-limit middleware is an npm
dependency, not under src/; src only configures two instances
(generalLimiter: max 100 per 15-minute window; authLimiter: max 5 per
15-minute window with skipSuccessfulRequests). Within one window each
instance counts a hit when the request arrives and rejects with 429 once
its count exceeds its maximum; with skipSuccessfulRequests a request
whose response status is below 400 is uncounted after it completes, so
only failed attempts consume the stricter budget. -/
structure LimiterCounters where
  generalHits : Nat
  authHits : Nat
deriving Repr, DecidableEq

/-- One POST /api/v1/users/login request within a single rate-limit
window: the generalLimiter runs first, then the authLimiter, then the
proxy handler which calls the users service login route. Yields the
response status, whether the upstream was called, and the updated
counters. -/
def loginAttempt (db : List UserRec) (email password : String)
    (st : LimiterCounters) : Nat × Bool × LimiterCounters :=
  let g := st.generalHits + 1
  if 100 < g then (429, false, ⟨g, st.authHits⟩)
  else
    let a := st.authHits + 1
    if 5 < a then (429, false, ⟨g, a⟩)
    else
      let status := loginStatus db email password
      let a2 := if status < 400 then a - 1 else a
      (status, true, ⟨g, a2⟩)

/-- A burst of identical login attempts from one client inside one
window: the list of (status, upstream-called) outcomes. -/
def loginAttempts (db : List UserRec) (email password : String) :
    Nat → LimiterCounters → List (Nat × Bool)
  | 0, _ => []
  | n + 1, st =>
      let r := loginAttempt db email password st
      (r.1, r.2.1) :: loginAttempts db email password n r.2.2

/-- C7: six rapid login attempts with a wrong password from one client
with fresh counters inside one 15-minute window: attempts 1 through 5
each reach the upstream and return 401, each consuming one unit of the
stricter budget of 5, and attempt 6 is rejected with 429 without any
upstream call; moreover a request that succeeds (status below 400) does
not consume the stricter budget. -/
theorem c7_login_throttling (db : List UserRec) (email password : String)
    (hwrong : loginStatus db email password = 401) :
    loginAttempts db email password 6 ⟨0, 0⟩ =
      [(401, true), (401, true), (401, true), (401, true), (401, true),
       (429, false)] ∧
    (∀ (db2 : List UserRec) (e2 p2 : String) (g a : Nat),
      g + 1 ≤ 100 → a + 1 ≤ 5 → loginStatus db2 e2 p2 = 200 →
      (loginAttempt db2 e2 p2 ⟨g, a⟩).2.2.authHits = a) := by
  constructor
  · simp [loginAttempts, loginAttempt, hwrong]
  · intro db2 e2 p2 g a hgle hale hsucc
    simp only [loginAttempt]
    rw [if_neg (by omega), if_neg (by omega), hsucc]
    simp

/-- C7 witness: with an empty user store every login attempt has a wrong
credential, and the six-attempt trace is as stated. -/
theorem c7_login_throttling_witness :
    loginAttempts [] "alice@example.com" "wrong" 6 ⟨0, 0⟩ =
      [(401, true), (401, true), (401, true), (401, true), (401, true),
       (429, false)] ∧
    (∀ (db2 : List UserRec) (e2 p2 : String) (g a : Nat),
      g + 1 ≤ 100 → a + 1 ≤ 5 → loginStatus db2 e2 p2 = 200 →
      (loginAttempt db2 e2 p2 ⟨g, a⟩).2.2.authHits = a) :=
  c7_login_throttling [] "alice@example.com" "wrong" rfl

/-- Raw order-item payload as posted to POST /orders, before validation:
every field may be absent. Numeric fields are modelled as rationals,
matching the arbitrary numeric values z.number() admits. -/
structure RawOrderItem where
  productId : Option String
  productName : Option String
  quantity : Option Rat
  price : Option Rat
deriving Repr, DecidableEq

/-- Raw order payload as posted to POST /orders, before validation. -/
structure RawOrderPayload where
  userId : Option Rat
  items : Option (List RawOrderItem)
  totalAmount : Option Rat
  status : Option String
deriving Repr, DecidableEq

/-- Validated order item per OrderItemSchema: productId and productName
non-empty strings, quantity an integer of at least 1, price
non-negative. -/
structure OrderItem where
  productId : String
  productName : String
  quantity : Rat
  price : Rat
deriving Repr, DecidableEq

/-- Validation of one raw item by OrderItemSchema. -/
def validateOrderItem (i : RawOrderItem) : Option OrderItem :=
  match i.productId, i.productName, i.quantity, i.price with
  | some pid, some pname, some q, some p =>
      if pid ≠ "" ∧ pname ≠ "" ∧ q.den = 1 ∧ 1 ≤ q ∧ 0 ≤ p then
        some ⟨pid, pname, q, p⟩
      else none
  | _, _, _, _ => none

/-- Membership in the order StatusEnum. -/
def statusEnumOk (s : String) : Bool :=
  s == "created" || s == "in_progress" || s == "completed" || s == "cancelled"

/-- Validated order data per createOrderSchema: userId a positive
integer, a non-empty list of valid items, an optional non-negative
totalAmount, and a status from the enum defaulting to created. -/
structure OrderData where
  userId : Rat
  items : List OrderItem
  totalAmount : Option Rat
  status : String
deriving Repr, DecidableEq

/-- Validation of an item array: every element must pass
OrderItemSchema. -/
def validateItems : List RawOrderItem → Option (List OrderItem)
  | [] => some []
  | i :: rest => do
      let v ← validateOrderItem i
      let vs ← validateItems rest
      some (v :: vs)

/-- Validation of the posted payload by createOrderSchema.safeParse. -/
def createOrderValidate (p : RawOrderPayload) : Option OrderData := do
  let uid ← p.userId
  let rawItems ← p.items
  if uid.den = 1 ∧ 0 < uid ∧ rawItems ≠ [] then
    let items ← validateItems rawItems
    let tot ←
      match p.totalAmount with
      | none => some none
      | some t => if 0 ≤ t then some (some t) else none
    let st ←
      match p.status with
      | none => some "created"
      | some s => if statusEnumOk s then some s else none
    some ⟨uid, items, tot, st⟩
  else none

/-- An item as processOrderItems stores it: the item plus its subtotal
`quantity * price`. -/
structure ProcessedItem where
  productId : String
  productName : String
  quantity : Rat
  price : Rat
  subtotal : Rat
deriving Repr, DecidableEq

/-- processOrderItems: annotate each item with its subtotal. -/
def processOrderItems (items : List OrderItem) : List ProcessedItem :=
  items.map (fun i => ⟨i.productId, i.productName, i.quantity, i.price,
    i.quantity * i.price⟩)

/-- A stored order as createOrderModel builds it. -/
structure OrderRec where
  id : Nat
  userId : Rat
  items : List ProcessedItem
  status : String
  totalAmount : Rat
  createdAt : String
  updatedAt : String
deriving Repr, DecidableEq

/-- createOrderModel: process the items, then compute totalAmount as the
sum of subtotals whenever the validated totalAmount is absent or 0 (the
source tests `!totalAmount`, and 0 is falsy), take the status from the
validated data, and assign the next id from the service id counter.
`now` stands for the timestamp string. -/
def createOrderModel (orderData : OrderData) (nextId : Nat) (now : String) :
    OrderRec :=
  let processed := processOrderItems orderData.items
  let subtotalSum := (processed.map (fun i => i.subtotal)).sum
  let total :=
    match orderData.totalAmount with
    | none => subtotalSum
    | some t => if t = 0 then subtotalSum else t
  ⟨nextId, orderData.userId, processed, orderData.status, total, now, now⟩

/-- Outcome of POST /orders on the orders service. -/
inductive CreateOrderOutcome where
  | invalid
  | userMissing
  | created (order : OrderRec)
deriving Repr, DecidableEq

/-- The POST /orders route of the orders service: validation failure is
rejected, then the user-existence check (`userExists` stands for the
checkUserExists HTTP lookup, which yields true when that lookup itself
errors), then the order is built and stored. -/
def ordersCreate (p : RawOrderPayload) (userExists : Bool) (nextId : Nat)
    (now : String) : CreateOrderOutcome :=
  match createOrderValidate p with
  | none => .invalid
  | some od =>
      if userExists then .created (createOrderModel od nextId now)
      else .userMissing

/-- HTTP response of POST /orders on the orders service: the status, the
envelope success flag, and the order carried in the envelope data field
(400 validation error, 404 user not found, 201 success envelope). -/
def ordersCreateResponse (p : RawOrderPayload) (userExists : Bool)
    (nextId : Nat) (now : String) : Nat × Bool × Option OrderRec :=
  match ordersCreate p userExists nextId now with
  | .invalid => (400, false, none)
  | .userMissing => (404, false, none)
  | .created order => (201, true, some order)

/-- The order.created domain event as the gateway constructs it through
OrderCreatedEvent: the event type tag, the aggregateId (set by
OrderCreatedEvent to order.id), the acting user id and the totalAmount
carried in the event data. -/
structure OrderCreatedEventRec where
  type : String
  aggregateId : Nat
  userId : Int
  totalAmount : Rat
deriving Repr, DecidableEq

/-- The gateway POST /api/v1/orders handler after its guards, composed
with the orders service route: the upstream response is forwarded
verbatim, and exactly when it is a 201 whose body is a truthy success
envelope, one order.created event is built from `result.data.data`
(falling back to `result.data`, which never happens for this upstream
since every 201 carries data) and published. Yields the forwarded
status, the order in the response data, and the published events. -/
def gatewayCreateOrder (p : RawOrderPayload) (callerId : Int)
    (userExists : Bool) (nextId : Nat) (now : String) :
    Nat × Option OrderRec × List OrderCreatedEventRec :=
  let resp := ordersCreateResponse p userExists nextId now
  let events :=
    if resp.1 = 201 ∧ resp.2.1 = true then
      match resp.2.2 with
      | some orderData =>
          [⟨"order.created", orderData.id, callerId, orderData.totalAmount⟩]
      | none => []
    else []
  (resp.1, resp.2.2, events)

/-- C8 counterexample: the exact payload of the claim,
`items: [{productId: p1, quantity: 2, price: 10}]` (with a valid
userId), is rejected by createOrderSchema with 400 because productName
is required and missing; no success envelope is produced and no
order.created event is published. -/
theorem c8_counterexample :
    (gatewayCreateOrder
      ⟨some 1, some [⟨some "p1", none, some 2, some 10⟩], none, none⟩
      7 true 1 "t0").1 = 400 ∧
    (gatewayCreateOrder
      ⟨some 1, some [⟨some "p1", none, some 2, some 10⟩], none, none⟩
      7 true 1 "t0").2.2 = [] := by
  exact ⟨rfl, rfl⟩

/-- C8 amended: for an authenticated, authorized request creating an
order whose single item additionally carries the productName the schema
requires, `{productId: p1, productName: P1, quantity: 2, price: 10}`,
with a valid existing userId, the gateway forwards the 201 success
envelope whose order has totalAmount 2 * 10 = 20, and exactly one
order.created event is published, whose aggregateId equals the created
order's id. -/
theorem c8_amended (callerId : Int) (nextId : Nat) (now : String) :
    gatewayCreateOrder
      ⟨some 1, some [⟨some "p1", some "P1", some 2, some 10⟩], none, none⟩
      callerId true nextId now =
    (201,
     some ⟨nextId, 1, [⟨"p1", "P1", 2, 10, 20⟩], "created", 20, now, now⟩,
     [⟨"order.created", nextId, callerId, 20⟩]) := by
  have hitem : validateOrderItem ⟨some "p1", some "P1", some 2, some 10⟩ =
      some ⟨"p1", "P1", 2, 10⟩ := by
    simp only [validateOrderItem]
    rw [if_pos ⟨by decide, by decide, by decide, by decide, by decide⟩]
  have hval : createOrderValidate
      ⟨some 1, some [⟨some "p1", some "P1", some 2, some 10⟩], none, none⟩ =
      some ⟨1, [⟨"p1", "P1", 2, 10⟩], none, "created"⟩ := by
    simp only [createOrderValidate, validateItems, hitem, Option.bind_eq_bind,
      Option.some_bind]
    rw [if_pos ⟨by decide, by decide, by decide⟩]
  simp only [gatewayCreateOrder, ordersCreateResponse, ordersCreate, hval,
    createOrderModel, processOrderItems, List.map_cons, List.map_nil,
    List.sum_cons, List.sum_nil, add_zero]
  norm_num

/-- The in-memory store of each upstream service: the record list keyed
by id, plus the id counter (fakeUsersDb with currentId in the users
services, fakeOrdersDb with currentId in the orders service; both
counters start at 1 and are incremented only by the create path). -/
structure IdStore (α : Type) where
  recs : List (Nat × α)
  currentId : Nat
deriving Repr

/-- Initial store state of each service: empty map, counter 1. -/
def IdStore.init (α : Type) : IdStore α := ⟨[], 1⟩

/-- generateUserId / generateOrderId (currentId++) followed by the store
insert: the issued id is the current counter value and the counter is
incremented. -/
def IdStore.create {α : Type} (st : IdStore α) (a : α) : Nat × IdStore α :=
  (st.currentId, ⟨(st.currentId, a) :: st.recs, st.currentId + 1⟩)

/-- The DELETE handlers: remove the record with the given id, leaving
the id counter untouched. -/
def IdStore.remove {α : Type} (st : IdStore α) (i : Nat) : IdStore α :=
  ⟨st.recs.filter (fun p => p.1 ≠ i), st.currentId⟩

/-- One store operation issued by the service routes over the store
lifetime. -/
inductive StoreOp (α : Type) where
  | create (a : α)
  | remove (i : Nat)

/-- Run a sequence of store operations, collecting the ids issued by the
creates in order. -/
def runStoreOps {α : Type} (st : IdStore α) :
    List (StoreOp α) → IdStore α × List Nat
  | [] => (st, [])
  | .create a :: rest =>
      let c := st.create a
      let next := runStoreOps c.2 rest
      (next.1, c.1 :: next.2)
  | .remove i :: rest => runStoreOps (st.remove i) rest

/-- Invariant behind the id-freshness claim: from any store state, the
issued ids are strictly increasing and all bounded below by the current
counter. -/
theorem runStoreOps_sorted_lb {α : Type} (ops : List (StoreOp α))
    (st : IdStore α) :
    (runStoreOps st ops).2.Sorted (· < ·) ∧
    ∀ i ∈ (runStoreOps st ops).2, st.currentId ≤ i := by
  induction ops generalizing st with
  | nil => simp [runStoreOps]
  | cons op rest ih =>
      cases op with
      | create a =>
          obtain ⟨hs, hlb⟩ := ih (st.create a).2
          have hcounter : (st.create a).2.currentId = st.currentId + 1 := rfl
          constructor
          · simp only [runStoreOps]
            refine List.sorted_cons.mpr ⟨?_, hs⟩
            intro b hb
            have := hlb b hb
            rw [hcounter] at this
            show st.currentId < b
            omega
          · intro i hi
            simp only [runStoreOps, List.mem_cons] at hi
            rcases hi with hi | hi
            · subst hi
              exact Nat.le_refl _
            · have := hlb i hi
              rw [hcounter] at this
              omega
      | remove j =>
          obtain ⟨hs, hlb⟩ := ih (st.remove j)
          have hcounter : (st.remove j).currentId = st.currentId := rfl
          refine ⟨hs, fun i hi => ?_⟩
          have := hlb i hi
          rw [hcounter] at this
          exact this

/-- C10: over any lifetime of an upstream service store (any sequence of
creates and deletes from the initial state), the ids issued to created
records are strictly increasing, hence pairwise distinct: a fresh id is
strictly greater than every previously issued id and an id is never
reused, even after the record holding it is deleted (deletion leaves the
counter untouched). -/
theorem c10_ids_fresh_and_never_reused {α : Type} (ops : List (StoreOp α)) :
    (runStoreOps (IdStore.init α) ops).2.Sorted (· < ·) ∧
    (runStoreOps (IdStore.init α) ops).2.Nodup ∧
    (∀ (st : IdStore α) (a : α),
      (st.create a).1 = st.currentId ∧
      (st.create a).2.currentId = st.currentId + 1) ∧
    (∀ (st : IdStore α) (i : Nat), (st.remove i).currentId = st.currentId) := by
  obtain ⟨hs, _⟩ := runStoreOps_sorted_lb ops (IdStore.init α)
  exact ⟨hs, hs.nodup, fun st a => ⟨rfl, rfl⟩, fun st i => rfl⟩

/-- sanitizeUser: destructure passwordHash away and serialize every other
field of the user record. -/
def sanitizeUser (u : UserRec) : JVal :=
  .jobj [("id", .jnum u.id), ("email", .jstr u.email),
         ("name", .jstr u.name),
         ("roles", .jarr (u.roles.map (fun r => .jstr r))),
         ("createdAt", .jstr u.createdAt), ("updatedAt", .jstr u.updatedAt)]

mutual

/-- Occurrence of a key anywhere in a value: as a key of the object
itself or of any object nested inside objects or arrays. -/
def JVal.hasKeyDeep (k : String) : JVal → Bool
  | .jobj fields => JVal.hasKeyDeepFields k fields
  | .jarr xs => JVal.hasKeyDeepList k xs
  | _ => false

/-- Occurrence of a key in any element of an array. -/
def JVal.hasKeyDeepList (k : String) : List JVal → Bool
  | [] => false
  | v :: rest => JVal.hasKeyDeep k v || JVal.hasKeyDeepList k rest

/-- Occurrence of a key among object fields, directly or nested. -/
def JVal.hasKeyDeepFields (k : String) : List (String × JVal) → Bool
  | [] => false
  | p :: rest => p.1 == k || JVal.hasKeyDeep k p.2 || JVal.hasKeyDeepFields k rest

end

/-- Case-insensitive substring test, modelling
`a.toLowerCase().includes(b.toLowerCase())`. -/
def strContainsLower (hay needle : String) : Bool :=
  ((hay.toLower).toList).tails.any
    (fun t => ((needle.toLower).toList).isPrefixOf t)

/-- JSON rendering of zod field errors,
`errors.map(err => ({field, message}))`. -/
def fieldErrorsJson (errs : List (String × String)) : JVal :=
  .jarr (errs.map (fun e =>
    .jobj [("field", .jstr e.1), ("message", .jstr e.2)]))

/-- The 400 envelope of the register/login/profile routes. -/
def validationFailedBody (errs : List (String × String)) : JVal :=
  .jobj [("success", .jbool false),
         ("error", .jobj [("message", .jstr ("Validation failed")),
                          ("details", fieldErrorsJson errs)])]

/-- The 409 envelope of the register/profile routes. -/
def emailExistsBody : JVal :=
  .jobj [("success", .jbool false),
         ("error", .jobj [("message",
            .jstr ("User with this email already exists"))])]

/-- The 401 envelope of the login route. -/
def invalidCredentialsBody : JVal :=
  .jobj [("success", .jbool false),
         ("error", .jobj [("message", .jstr ("Invalid email or password"))])]

/-- The 404 envelope of the profile routes. -/
def userNotFoundBody : JVal :=
  .jobj [("success", .jbool false),
         ("error", .jobj [("message", .jstr ("User not found"))])]

/-- The plain 400 body of the CRUD user routes. -/
def plainValidationBody (errs : List (String × String)) : JVal :=
  .jobj [("error", .jstr ("Validation failed")), ("errors", fieldErrorsJson errs)]

/-- The plain 409 body of the CRUD user routes. -/
def plainEmailExistsBody : JVal :=
  .jobj [("error", .jstr ("User with this email already exists"))]

/-- The plain 404 body of the CRUD user routes. -/
def plainUserNotFoundBody : JVal :=
  .jobj [("error", .jstr ("User not found"))]

/-- Parsed registerSchema payload. -/
structure RegisterInput where
  email : String
  password : String
  name : String
deriving Repr, DecidableEq

/-- POST /users/register: zod failure (the parse outcome, with its field
errors, is a parameter, validation being an external capability),
duplicate email, or 201 with the token envelope around the sanitized new
user built by createUserModel. `token` stands for jwt.sign, `now` for
the timestamp. -/
def registerResponse (db : List UserRec)
    (parsed : Except (List (String × String)) RegisterInput)
    (nextId : Nat) (token now : String) : Nat × JVal :=
  match parsed with
  | .error errs => (400, validationFailedBody errs)
  | .ok inp =>
      if db.any (fun u => u.email == inp.email) then (409, emailExistsBody)
      else
        let newUser : UserRec :=
          ⟨nextId, inp.email, inp.password, inp.name, ["Customer"], now, now⟩
        (201, .jobj [("success", .jbool true),
          ("data", .jobj [("token", .jstr token),
                          ("user", sanitizeUser newUser)])])

/-- Parsed loginSchema payload. -/
structure LoginInput where
  email : String
  password : String
deriving Repr, DecidableEq

/-- POST /users/login: zod failure, unknown email or wrong password, or
200 with the token envelope around the sanitized user. -/
def loginResponse (db : List UserRec)
    (parsed : Except (List (String × String)) LoginInput)
    (token : String) : Nat × JVal :=
  match parsed with
  | .error errs => (400, validationFailedBody errs)
  | .ok inp =>
      match db.find? (fun u => u.email == inp.email) with
      | none => (401, invalidCredentialsBody)
      | some u =>
          if u.passwordHash == inp.password then
            (200, .jobj [("success", .jbool true),
              ("data", .jobj [("token", .jstr token),
                              ("user", sanitizeUser u)])])
          else (401, invalidCredentialsBody)

/-- GET /users/profile/:userId: 404 or the sanitized user envelope. -/
def profileGetResponse (db : List UserRec) (userId : Nat) : Nat × JVal :=
  match db.find? (fun u => u.id == userId) with
  | none => (404, userNotFoundBody)
  | some u => (200, .jobj [("success", .jbool true),
      ("data", .jobj [("user", sanitizeUser u)])])

/-- Parsed updateProfileSchema payload. -/
structure ProfileUpdateInput where
  email : Option String
  name : Option String
deriving Repr, DecidableEq

/-- PUT /users/profile/:userId: 404, zod failure, email conflict (the
check runs only when the posted email is truthy), or 200 with the
sanitized merged user. -/
def profileUpdateResponse (db : List UserRec) (userId : Nat)
    (parsed : Except (List (String × String)) ProfileUpdateInput)
    (now : String) : Nat × JVal :=
  match db.find? (fun u => u.id == userId) with
  | none => (404, userNotFoundBody)
  | some u =>
      match parsed with
      | .error errs => (400, validationFailedBody errs)
      | .ok upd =>
          let conflict :=
            match upd.email with
            | some e => e ≠ "" &&
                db.any (fun u2 => u2.email == e && u2.id != userId)
            | none => false
          if conflict then (409, emailExistsBody)
          else
            let updated : UserRec := { u with
              email := upd.email.getD u.email,
              name := upd.name.getD u.name,
              updatedAt := now }
            (200, .jobj [("success", .jbool true),
              ("data", .jobj [("user", sanitizeUser updated)])])

/-- The `s || null` rendering of an optional filter echo. -/
def optStrJson : Option String → JVal
  | none => .jnull
  | some s => if s = "" then .jnull else .jstr s

/-- GET /users (the filtered, sorted, paginated admin list): role,
email-substring and name-substring filters (each applied only when
truthy), the comparator-driven sort (the comparator, built from
sortBy/sortOrder with Date parsing, stays an external parameter as does
the produced ordering), page/limit clamping, slicing, and sanitization
of exactly the returned page. -/
def usersListResponse (db : List UserRec) (role email name : Option String)
    (rawPage rawLimit : Int) (sortUsers : List UserRec → List UserRec)
    (sortBy sortOrder : String) : Nat × JVal :=
  let f1 := match role with
    | some r => if r ≠ "" then db.filter (fun u => u.roles.contains r) else db
    | none => db
  let f2 := match email with
    | some e =>
        if e ≠ "" then f1.filter (fun u => strContainsLower u.email e) else f1
    | none => f1
  let f3 := match name with
    | some n =>
        if n ≠ "" then f2.filter (fun u => strContainsLower u.name n) else f2
    | none => f2
  let sorted := sortUsers f3
  let pageNum := max 1 rawPage
  let limitNum := min 100 (max 1 rawLimit)
  let startIndex := ((pageNum - 1) * limitNum).toNat
  let paginated := (sorted.drop startIndex).take limitNum.toNat
  let total := sorted.length
  let totalPages := (total + limitNum.toNat - 1) / limitNum.toNat
  (200, .jobj [("success", .jbool true),
    ("users", .jarr (paginated.map sanitizeUser)),
    ("pagination", .jobj [("page", .jnum pageNum), ("limit", .jnum limitNum),
        ("total", .jnum total), ("totalPages", .jnum totalPages)]),
    ("filters", .jobj [("role", optStrJson role), ("email", optStrJson email),
        ("name", optStrJson name)]),
    ("sorting", .jobj [("sortBy", .jstr sortBy),
        ("sortOrder", .jstr sortOrder)])])

/-- Parsed createUserSchema payload. -/
structure CreateUserInput where
  email : String
  password : Option String
  passwordHash : Option String
  name : String
  roles : List String
deriving Repr, DecidableEq

/-- POST /users: zod failure, duplicate email, or 201 with the sanitized
new user as the bare body; createUserModel stores
`passwordHash || password` as the hash. -/
def createUserResponse (db : List UserRec)
    (parsed : Except (List (String × String)) CreateUserInput)
    (nextId : Nat) (now : String) : Nat × JVal :=
  match parsed with
  | .error errs => (400, plainValidationBody errs)
  | .ok inp =>
      if db.any (fun u => u.email == inp.email) then (409, plainEmailExistsBody)
      else
        let ph := match inp.passwordHash with
          | some p => if p ≠ "" then p else (inp.password.getD "")
          | none => inp.password.getD ""
        let newUser : UserRec := ⟨nextId, inp.email, ph, inp.name, inp.roles, now, now⟩
        (201, sanitizeUser newUser)

/-- GET /users/:userId: 404 or the sanitized user as the bare body. -/
def userGetResponse (db : List UserRec) (userId : Nat) : Nat × JVal :=
  match db.find? (fun u => u.id == userId) with
  | none => (404, plainUserNotFoundBody)
  | some u => (200, sanitizeUser u)

/-- Parsed updateUserSchema payload. -/
structure UpdateUserInput where
  email : Option String
  password : Option String
  passwordHash : Option String
  name : Option String
  roles : Option (List String)
deriving Repr, DecidableEq

/-- updateUserModel: merge each field present in the update (tested with
`!== undefined`) over the stored record; the plain password field of the
update schema is not merged. -/
def updateUserModel (u : UserRec) (upd : UpdateUserInput) (now : String) :
    UserRec :=
  { u with
    email := upd.email.getD u.email,
    passwordHash := upd.passwordHash.getD u.passwordHash,
    name := upd.name.getD u.name,
    roles := upd.roles.getD u.roles,
    updatedAt := now }

/-- PUT /users/:userId: 404, zod failure, email conflict (only when the
posted email is truthy), or the sanitized merged user as the bare
body. -/
def userUpdateResponse (db : List UserRec) (userId : Nat)
    (parsed : Except (List (String × String)) UpdateUserInput)
    (now : String) : Nat × JVal :=
  match db.find? (fun u => u.id == userId) with
  | none => (404, plainUserNotFoundBody)
  | some u =>
      match parsed with
      | .error errs => (400, plainValidationBody errs)
      | .ok upd =>
          let conflict :=
            match upd.email with
            | some e => e ≠ "" &&
                db.any (fun u2 => u2.email == e && u2.id != userId)
            | none => false
          if conflict then (409, plainEmailExistsBody)
          else (200, sanitizeUser (updateUserModel u upd now))

/-- DELETE /users/:userId: 404, or the deletion message wrapping the
sanitized deleted user. -/
def userDeleteResponse (db : List UserRec) (userId : Nat) : Nat × JVal :=
  match db.find? (fun u => u.id == userId) with
  | none => (404, plainUserNotFoundBody)
  | some u => (200, .jobj [("message", .jstr ("User deleted")),
      ("user", sanitizeUser u)])

/-- Unfolding equation of hasKeyDeep on an object. -/
@[simp] theorem hasKeyDeep_jobj (k : String) (fields : List (String × JVal)) :
    JVal.hasKeyDeep k (.jobj fields) = JVal.hasKeyDeepFields k fields := rfl

/-- Unfolding equation of hasKeyDeep on an array. -/
@[simp] theorem hasKeyDeep_jarr (k : String) (xs : List JVal) :
    JVal.hasKeyDeep k (.jarr xs) = JVal.hasKeyDeepList k xs := rfl

/-- Strings carry no keys. -/
@[simp] theorem hasKeyDeep_jstr (k s : String) :
    JVal.hasKeyDeep k (.jstr s) = false := rfl

/-- Booleans carry no keys. -/
@[simp] theorem hasKeyDeep_jbool (k : String) (b : Bool) :
    JVal.hasKeyDeep k (.jbool b) = false := rfl

/-- Numbers carry no keys. -/
@[simp] theorem hasKeyDeep_jnum (k : String) (n : Int) :
    JVal.hasKeyDeep k (.jnum n) = false := rfl

/-- Null carries no keys. -/
@[simp] theorem hasKeyDeep_jnull (k : String) :
    JVal.hasKeyDeep k .jnull = false := rfl

/-- Unfolding equation of the field search on a cons. -/
@[simp] theorem hasKeyDeepFields_cons (k : String) (p : String × JVal)
    (rest : List (String × JVal)) :
    JVal.hasKeyDeepFields k (p :: rest) =
      (p.1 == k || JVal.hasKeyDeep k p.2 || JVal.hasKeyDeepFields k rest) := rfl

/-- Unfolding equation of the field search on nil. -/
@[simp] theorem hasKeyDeepFields_nil (k : String) :
    JVal.hasKeyDeepFields k [] = false := rfl

/-- Unfolding equation of the array search on a cons. -/
@[simp] theorem hasKeyDeepList_cons (k : String) (v : JVal) (rest : List JVal) :
    JVal.hasKeyDeepList k (v :: rest) =
      (JVal.hasKeyDeep k v || JVal.hasKeyDeepList k rest) := rfl

/-- Unfolding equation of the array search on nil. -/
@[simp] theorem hasKeyDeepList_nil (k : String) :
    JVal.hasKeyDeepList k [] = false := rfl

/-- The array search coincides with an any over elements. -/
theorem hasKeyDeepList_eq_any (k : String) (l : List JVal) :
    JVal.hasKeyDeepList k l = l.any (fun v => JVal.hasKeyDeep k v) := by
  induction l with
  | nil => rfl
  | cons v rest ih => simp [ih]

/-- The sanitized serialization of any user record carries no
passwordHash key anywhere. -/
@[simp] theorem sanitizeUser_no_passwordHash (u : UserRec) :
    JVal.hasKeyDeep ("passwordHash") (sanitizeUser u) = false := by
  have hroles : ∀ rs : List String,
      JVal.hasKeyDeepList ("passwordHash") (rs.map (fun r => .jstr r)) = false := by
    intro rs
    induction rs with
    | nil => rfl
    | cons r rest ih => simp [ih]
  simp [sanitizeUser, hroles]

/-- A list of sanitized users carries no passwordHash key. -/
@[simp] theorem hasKeyDeepList_sanitized (l : List UserRec) :
    JVal.hasKeyDeepList ("passwordHash") (l.map sanitizeUser) = false := by
  induction l with
  | nil => rfl
  | cons u rest ih => simp [ih]

/-- Serialized zod field errors carry no passwordHash key (field names
and messages are string values, not keys). -/
@[simp] theorem hasKeyDeepList_fieldErrors (errs : List (String × String)) :
    JVal.hasKeyDeepList ("passwordHash")
      (errs.map (fun e => .jobj [("field", .jstr e.1),
        ("message", .jstr e.2)])) = false := by
  induction errs with
  | nil => rfl
  | cons e rest ih => simp [ih]

/-- The null-or-string filter echo carries no passwordHash key. -/
@[simp] theorem hasKeyDeep_optStr (o : Option String) :
    JVal.hasKeyDeep ("passwordHash") (optStrJson o) = false := by
  cases o with
  | none => rfl
  | some s => by_cases h : s = "" <;> simp [optStrJson, h]

/-- C9: no response of any users-service endpoint (register, login,
profile read and update, admin list, create, read, update, delete), on
any branch (success, validation error, conflict, not-found), carries a
passwordHash key anywhere in its body: every serialized user passes
through sanitizeUser, which removes that field. -/
theorem c9_no_passwordHash_leak
    (db : List UserRec) (nextId userId : Nat) (token now : String)
    (regParse : Except (List (String × String)) RegisterInput)
    (logParse : Except (List (String × String)) LoginInput)
    (profParse : Except (List (String × String)) ProfileUpdateInput)
    (createParse : Except (List (String × String)) CreateUserInput)
    (updParse : Except (List (String × String)) UpdateUserInput)
    (role email name : Option String) (rawPage rawLimit : Int)
    (sortUsers : List UserRec → List UserRec) (sortBy sortOrder : String) :
    JVal.hasKeyDeep ("passwordHash")
      (registerResponse db regParse nextId token now).2 = false ∧
    JVal.hasKeyDeep ("passwordHash") (loginResponse db logParse token).2 = false ∧
    JVal.hasKeyDeep ("passwordHash") (profileGetResponse db userId).2 = false ∧
    JVal.hasKeyDeep ("passwordHash")
      (profileUpdateResponse db userId profParse now).2 = false ∧
    JVal.hasKeyDeep ("passwordHash")
      (usersListResponse db role email name rawPage rawLimit sortUsers
        sortBy sortOrder).2 = false ∧
    JVal.hasKeyDeep ("passwordHash")
      (createUserResponse db createParse nextId now).2 = false ∧
    JVal.hasKeyDeep ("passwordHash") (userGetResponse db userId).2 = false ∧
    JVal.hasKeyDeep ("passwordHash")
      (userUpdateResponse db userId updParse now).2 = false ∧
    JVal.hasKeyDeep ("passwordHash") (userDeleteResponse db userId).2 = false := by
  refine ⟨?_, ?_, ?_, ?_, ?_, ?_, ?_, ?_, ?_⟩
  · cases regParse with
    | error errs => simp [registerResponse, validationFailedBody, fieldErrorsJson]
    | ok inp =>
        rcases Bool.eq_false_or_eq_true (db.any (fun u => u.email == inp.email))
          with h | h <;>
          simp [registerResponse, h, emailExistsBody]
  · cases logParse with
    | error errs => simp [loginResponse, validationFailedBody, fieldErrorsJson]
    | ok inp =>
        cases hfind : db.find? (fun u => u.email == inp.email) with
        | none => simp [loginResponse, hfind, invalidCredentialsBody]
        | some u =>
            rcases Bool.eq_false_or_eq_true (u.passwordHash == inp.password)
              with h | h <;>
              simp [loginResponse, hfind, h, invalidCredentialsBody]
  · cases hfind : db.find? (fun u => u.id == userId) with
    | none => simp [profileGetResponse, hfind, userNotFoundBody]
    | some u => simp [profileGetResponse, hfind]
  · cases hfind : db.find? (fun u => u.id == userId) with
    | none => simp [profileUpdateResponse, hfind, userNotFoundBody]
    | some u =>
        cases profParse with
        | error errs =>
            simp [profileUpdateResponse, hfind, validationFailedBody,
              fieldErrorsJson]
        | ok upd =>
            simp only [profileUpdateResponse, hfind]
            split <;> simp [emailExistsBody]
  · have hsub : ∀ (n m : Nat) (l : List UserRec),
        JVal.hasKeyDeepList ("passwordHash")
          (((l.map sanitizeUser).drop m).take n) = false := by
      intro n m l
      rw [hasKeyDeepList_eq_any, List.any_eq_false]
      intro v hv
      have hv2 : v ∈ l.map sanitizeUser :=
        List.drop_subset m _ (List.take_subset n _ hv)
      rcases List.mem_map.mp hv2 with ⟨u, _, rfl⟩
      simp [sanitizeUser_no_passwordHash u]
    simp [usersListResponse, hsub]
  · cases createParse with
    | error errs =>
        simp [createUserResponse, plainValidationBody, fieldErrorsJson]
    | ok inp =>
        rcases Bool.eq_false_or_eq_true (db.any (fun u => u.email == inp.email))
          with h | h <;>
          simp [createUserResponse, h, plainEmailExistsBody]
  · cases hfind : db.find? (fun u => u.id == userId) with
    | none => simp [userGetResponse, hfind, plainUserNotFoundBody]
    | some u => simp [userGetResponse, hfind]
  · cases hfind : db.find? (fun u => u.id == userId) with
    | none => simp [userUpdateResponse, hfind, plainUserNotFoundBody]
    | some u =>
        cases updParse with
        | error errs =>
            simp [userUpdateResponse, hfind, plainValidationBody,
              fieldErrorsJson]
        | ok upd =>
            simp only [userUpdateResponse, hfind]
            split <;> simp [plainEmailExistsBody]
  · cases hfind : db.find? (fun u => u.id == userId) with
    | none => simp [userDeleteResponse, hfind, plainUserNotFoundBody]
    | some u => simp [userDeleteResponse, hfind]
